import Mathlib

/-!
Verification of the credential & token service of the duet-company backend
(`app/core/security.py`, `app/auth/service.py`, `app/schemas/user.py`).

The Python code delegates JWT work to `python-jose` (`jwt.encode` /
`jwt.decode`) and password hashing to `passlib`'s bcrypt `CryptContext`.
Those libraries are embedded symbolically here:

* a JWT is either a structurally malformed string or a signed pair of a
  payload and a MAC; the MAC is modelled in the symbolic (Dolev-Yao) style
  as the pair of the signing key and the signed payload, so that a signature
  verifies exactly when it was produced with the same secret over the same
  payload;
* `jwt.decode` verifies the signature, then validates the registered claims
  exactly as `jose.jwt._validate_claims` does: `exp` fails with
  `ExpiredSignatureError` when `exp < now` (integer seconds, zero leeway),
  and `sub`, when present, must be a string or `JWTClaimsError` is raised;
  every one of those errors is a subclass of `JWTError`;
* a stored password hash is either a string in bcrypt modular-crypt format
  (identifier, cost, salt, digest — the fields `passlib` parses out of it)
  or a string `passlib` cannot identify, on which `CryptContext.verify`
  raises `UnknownHashError` (a `ValueError`);
* the bcrypt key-derivation core is kept abstract as a `digestFn` parameter
  (a deterministic function of password, salt and cost); every theorem about
  hashing is proved for an arbitrary such function, which is exactly why the
  corresponding property holds of real bcrypt: `passlib` re-computes the
  digest with the salt and parameters parsed from the stored hash;
* wall-clock time (`datetime.utcnow`) is passed explicitly, in integer
  seconds, because `jose` truncates both the embedded `exp` claim and the
  comparison time to whole seconds.

`TokenData` is imported by `security.py` from `app.auth.schemas`, a module
not present in the source tree; it is embedded here after the identically
named pydantic model in `app/schemas/user.py` (`email: Optional[str]`,
`user_id: Optional[int]`).  Pydantic coerces a value assigned to an
`Optional[int]` field with Python `int(...)` semantics: integers pass
through and strings are parsed, a non-numeric string raising a
`ValidationError`.
-/

/-- A JSON claim value as it can appear in a token payload: a string or an
integer (the two shapes the service ever reads or writes). -/
inductive JVal where
  | str (s : String)
  | int (n : Int)
deriving DecidableEq, Repr

/-- Accumulator pass of decimal parsing: consumes digits, fails on the first
non-digit character. -/
def pyParseNatAux : List Char → Nat → Option Nat
  | [], acc => some acc
  | c :: cs, acc =>
    if c.isDigit then pyParseNatAux cs (acc * 10 + (c.toNat - 48)) else none

/-- Decimal string parsing with Python `int(...)` semantics on the inputs the
service can meet: an optional sign followed by at least one digit succeeds,
anything else (the empty string, a bare sign, any non-digit character)
raises `ValueError`.  Python's additional tolerance for surrounding
whitespace and `_` digit separators is not modelled; no theorem below
depends on those inputs. -/
def pyStrToInt? (s : String) : Option Int :=
  match s.data with
  | [] => none
  | '-' :: [] => none
  | '-' :: cs => (pyParseNatAux cs 0).map (fun n => -(n : Int))
  | '+' :: [] => none
  | '+' :: cs => (pyParseNatAux cs 0).map (fun n => (n : Int))
  | cs => (pyParseNatAux cs 0).map (fun n => (n : Int))

/-- Python `int(...)` applied to a claim value, as pydantic applies it to an
`Optional[int]` field: integers pass through, numeric strings parse, any
other string fails (raising `ValidationError`). -/
def pyIntCoerce : JVal → Option Int
  | .int n => some n
  | .str s => pyStrToInt? s

/-- The string a claim value contributes to an `Optional[str]` field, when it
is one (jose rejects a non-string `sub` before pydantic ever sees it). -/
def jvalStr? : JVal → Option String
  | .str s => some s
  | .int _ => none

/-- A token payload: the `sub` and `user_id` entries of the claims dict (the
only ones the service reads) and the `exp` registered claim in integer
seconds (jose converts a `datetime` expiry through `timegm(utctimetuple())`). -/
structure Payload where
  sub : Option JVal
  userId : Option JVal
  exp : Option Int
deriving DecidableEq, Repr

/-- A symbolic HMAC signature: it records the key and the payload it was
computed over, so two signatures agree exactly when both the secret and the
signed bytes agree. -/
structure Sig where
  key : String
  signedPayload : Payload
deriving DecidableEq, Repr

/-- A string in token position: either structurally malformed (not a
three-part JWT, e.g. the empty string) or a well-formed token carrying a
payload and a signature. -/
inductive Token where
  | malformed (s : String)
  | signed (payload : Payload) (sig : Sig)
deriving DecidableEq, Repr

/-- The `jose.exceptions.JWTError` subclasses `jwt.decode` can raise. -/
inductive JoseError where
  | malformedToken
  | badSignature
  | expiredSignature
  | invalidClaims
deriving DecidableEq, Repr

/-- Exceptions of the Python runtime that are not `JWTError` and therefore
escape `decode_access_token`'s `except JWTError` clause, plus passlib's
`UnknownHashError` raised by `CryptContext.verify`. -/
inductive PyError where
  | validationError
  | unknownHashError
deriving DecidableEq, Repr

/-- The claim-set validation of jose `jwt._validate_exp` with the default
zero leeway: an `exp` claim fails with `ExpiredSignatureError` exactly when
`exp < now`; a payload without `exp` passes. -/
def validateExp (now : Int) (p : Payload) : Except JoseError Unit :=
  match p.exp with
  | none => .ok ()
  | some e => if e < now then .error .expiredSignature else .ok ()

/-- The claim-set validation of jose `jwt._validate_sub`: a present `sub`
claim that is not a string raises `JWTClaimsError`. -/
def validateSub (p : Payload) : Except JoseError Unit :=
  match p.sub with
  | none => .ok ()
  | some (.str _) => .ok ()
  | some (.int _) => .error .invalidClaims

/-- Embedding of `jose.jwt.decode(token, key, algorithms=[...])`: a malformed
string raises, a wrong signature raises, then the registered claims are
validated; on success the payload dict is returned. -/
def joseDecode (secret : String) (now : Int) (t : Token) : Except JoseError Payload :=
  match t with
  | .malformed _ => .error .malformedToken
  | .signed p sig =>
    if sig = ⟨secret, p⟩ then
      match validateExp now p with
      | .error e => .error e
      | .ok _ =>
        match validateSub p with
        | .error e => .error e
        | .ok _ => .ok p
    else .error .badSignature

/-- Embedding of `jose.jwt.encode(claims, key, algorithm)`: the payload
signed with the secret. -/
def joseEncode (secret : String) (p : Payload) : Token :=
  .signed p ⟨secret, p⟩

/-- Configuration `ACCESS_TOKEN_EXPIRE_MINUTES` under its default
environment (`os.getenv("ACCESS_TOKEN_EXPIRE_MINUTES", "60")`). -/
def ACCESS_TOKEN_EXPIRE_MINUTES : Int := 60

/-- The `data` dict passed to `create_access_token`: its `sub` and `user_id`
entries (any `exp` entry is overwritten by the function, and no other entry
is ever read). -/
structure TokenInput where
  sub : Option JVal
  userId : Option JVal
deriving DecidableEq, Repr

/-- Embedding of `create_access_token(data, expires_delta)` from
`app/core/security.py`.  `now` is `datetime.utcnow()` in integer seconds and
`expires_delta` is the optional `timedelta` in seconds.  Note the Python
source tests `if expires_delta:` — a *zero* timedelta is falsy, so it falls
through to the default `ACCESS_TOKEN_EXPIRE_MINUTES` lifetime. -/
def create_access_token (secret : String) (now : Int) (data : TokenInput)
    (expires_delta : Option Int) : Token :=
  let expire : Int :=
    match expires_delta with
    | some d => if d ≠ 0 then now + d else now + 60 * ACCESS_TOKEN_EXPIRE_MINUTES
    | none => now + 60 * ACCESS_TOKEN_EXPIRE_MINUTES
  joseEncode secret { sub := data.sub, userId := data.userId, exp := some expire }

/-- The `TokenData` pydantic model (embedded after `app/schemas/user.py`,
since `app.auth.schemas` is absent from the tree): `email: Optional[str]`,
`user_id: Optional[int]`. -/
structure TokenData where
  email : Option String
  user_id : Option Int
deriving DecidableEq, Repr

/-- Pydantic validation performed by `TokenData(email=…, user_id=…)`: the
`email` field accepts a string (jose has already guaranteed `sub`, when
present, is one), and the `user_id` field coerces with `int(...)`, raising
`ValidationError` when that fails. -/
def TokenData.validate (email userId : Option JVal) : Except PyError TokenData :=
  match email, userId with
  | e, some v =>
    match pyIntCoerce v with
    | some n => .ok ⟨e.bind jvalStr?, some n⟩
    | none => .error .validationError
  | e, none => .ok ⟨e.bind jvalStr?, none⟩

/-- Embedding of `decode_access_token(token)` from `app/core/security.py`:
`jwt.decode` inside `try/except JWTError` (any `JWTError` yields `None`),
then `payload.get("sub")` / `payload.get("user_id")` with an early `None`
when either is absent, then `TokenData(...)` — whose `ValidationError`, not
being a `JWTError`, propagates to the caller. -/
def decode_access_token (secret : String) (now : Int) (t : Token) :
    Except PyError (Option TokenData) :=
  match joseDecode secret now t with
  | .error _ => .ok none
  | .ok p =>
    if p.sub = none ∨ p.userId = none then .ok none
    else
      match TokenData.validate p.sub p.userId with
      | .ok td => .ok (some td)
      | .error e => .error e

/-- The `exp` claim carried by a token, when it is well-formed. -/
def tokenExp : Token → Option Int
  | .malformed _ => none
  | .signed p _ => p.exp

/-- The fields passlib parses out of a bcrypt modular-crypt string
`$2b$cost$saltdigest`: scheme identifier, cost factor, the 22-character salt
and the digest. -/
structure BcryptRecord where
  ident : String
  cost : Nat
  salt : String
  digest : String
deriving DecidableEq, Repr

/-- A string in stored-hash position, partitioned the way
`CryptContext.identify` partitions it: either it parses as a bcrypt
modular-crypt string, or no configured scheme recognises it. -/
inductive HashStr where
  | bcrypt (r : BcryptRecord)
  | unidentified (s : String)
deriving DecidableEq, Repr

/-- Whether a stored-hash string was recognised as a bcrypt hash. -/
def HashStr.isBcrypt : HashStr → Bool
  | .bcrypt _ => true
  | .unidentified _ => false

/-- Embedding of `get_password_hash(password)` from `app/core/security.py`:
`CryptContext(schemes=["bcrypt"]).hash` draws a fresh random salt (passed
here explicitly, in state-passing style), runs the bcrypt key derivation at
the default cost 12, and emits the modular-crypt string holding identifier,
cost, salt and digest.  It accepts any string — bcrypt hashes the empty
password and passlib silently truncates inputs beyond 72 bytes — so the
embedding is total. -/
def get_password_hash (digestFn : String → String → Nat → String)
    (salt : String) (password : String) : HashStr :=
  .bcrypt { ident := "2b", cost := 12, salt := salt, digest := digestFn password salt 12 }

/-- Embedding of `verify_password(plain_password, hashed_password)` from
`app/core/security.py`: `CryptContext.verify` raises `UnknownHashError` when
the stored string matches no configured scheme; otherwise it re-computes the
digest of the candidate password with the salt and cost parsed from the
stored hash and compares digests. -/
def verify_password (digestFn : String → String → Nat → String)
    (plain : String) (hashed : HashStr) : Except PyError Bool :=
  match hashed with
  | .unidentified _ => .error .unknownHashError
  | .bcrypt r => .ok (digestFn plain r.salt r.cost == r.digest)

/-- A row of the `users` table as `authenticate_user` reads it
(`app/models/user.py`): primary key, unique email, stored hash. -/
structure DBUser where
  id : Int
  email : String
  hashed_password : HashStr
deriving DecidableEq, Repr

/-- Embedding of `db.query(User).filter(User.email == email).first()`: the
first row of the database state whose email matches. -/
def dbFindByEmail (db : List DBUser) (email : String) : Option DBUser :=
  db.find? (fun u => u.email == email)

/-- Embedding of `AuthService.authenticate_user(db, credentials)` from
`app/auth/service.py`: look the user up by email, return `None` when absent;
verify the password against the stored hash, return `None` on mismatch;
return the user on success.  An exception from `verify_password` (malformed
stored hash) propagates. -/
def authenticate_user (digestFn : String → String → Nat → String)
    (db : List DBUser) (credEmail credPassword : String) :
    Except PyError (Option DBUser) :=
  match dbFindByEmail db credEmail with
  | none => .ok none
  | some user =>
    match verify_password digestFn credPassword user.hashed_password with
    | .error e => .error e
    | .ok true => .ok (some user)
    | .ok false => .ok none

/-- Validation of the `password` field of the `UserCreate` schema
(`app/schemas/user.py`): `Field(..., min_length=8, max_length=100)` plus the
`password_strength` validator re-checking the lower bound; pydantic raises
`ValidationError` outside the bounds. -/
def validatePasswordField (password : String) : Except PyError String :=
  if password.length < 8 then .error .validationError
  else if 100 < password.length then .error .validationError
  else .ok password

/-- A concrete stand-in digest function used only to instantiate witnesses
and counterexamples at a specific input. -/
def constDigest : String → String → Nat → String := fun _ _ _ => "digest"

/-- C2: verifying a password against its own freshly produced hash succeeds,
for every password, every salt the hashing call draws, and every digest
function (in particular bcrypt's), because verification re-computes the
digest with the salt and cost parsed out of the stored hash. -/
theorem c2_verify_roundtrip (digestFn : String → String → Nat → String)
    (salt password : String) :
    verify_password digestFn password (get_password_hash digestFn salt password)
      = .ok true := by
  simp [verify_password, get_password_hash]

/-- C3 (counterexample): the claim says `verify_password` returns false and
raises nothing on a hash string that is not well-formed; on the unidentifiable
string "not-a-hash" the code instead raises passlib's `UnknownHashError`, so
it neither returns false nor stays exception-free. -/
theorem c3_counterexample :
    verify_password constDigest "password123" (HashStr.unidentified "not-a-hash")
        = .error PyError.unknownHashError ∧
      verify_password constDigest "password123" (HashStr.unidentified "not-a-hash")
        ≠ .ok false :=
  ⟨rfl, by simp [verify_password]⟩

/-- C3 (amended): for every password and every stored string that no
configured scheme identifies as a hash, `verify_password` raises
`UnknownHashError` (it does not return false); it returns a boolean only on
well-formed bcrypt hashes, false exactly when the re-computed digest differs. -/
theorem c3_malformed_hash_raises (digestFn : String → String → Nat → String)
    (plain s : String) :
    verify_password digestFn plain (HashStr.unidentified s)
        = .error PyError.unknownHashError ∧
      ∀ r : BcryptRecord,
        verify_password digestFn plain (HashStr.bcrypt r)
          = .ok (digestFn plain r.salt r.cost == r.digest) :=
  ⟨rfl, fun _ => rfl⟩

/-- C9: two hashing calls on the same password that draw distinct salts
produce distinct hash strings, whatever the digest function, because the
salt is embedded verbatim in the emitted modular-crypt string. -/
theorem c9_distinct_salts_distinct_hashes
    (digestFn : String → String → Nat → String) (password s₁ s₂ : String)
    (h : s₁ ≠ s₂) :
    get_password_hash digestFn s₁ password ≠ get_password_hash digestFn s₂ password := by
  simp only [get_password_hash, ne_eq, HashStr.bcrypt.injEq, BcryptRecord.mk.injEq]
  intro hh
  exact h hh.2.2.1

/-- C9 (witness): two concrete distinct salts yield distinct hashes of the
same password. -/
theorem c9_witness :
    get_password_hash constDigest "salt-one" "password123"
      ≠ get_password_hash constDigest "salt-two" "password123" :=
  c9_distinct_salts_distinct_hashes constDigest "password123" "salt-one" "salt-two"
    (by decide)

/-- C7 (counterexample): the claim says the hash operation rejects an empty
password with an invalid-input error instead of producing a hash; the code
hashes the empty string without complaint — the rejection happens only in the
`UserCreate` schema validation. -/
theorem c7_counterexample :
    (get_password_hash constDigest "somesalt" "").isBcrypt = true ∧
      validatePasswordField "" = .error PyError.validationError :=
  ⟨rfl, rfl⟩

/-- C7 (amended): empty (more generally, shorter than 8 characters) and
oversized (longer than 100 characters) passwords are rejected by the
`UserCreate` schema validation before the service ever hashes them, while
`get_password_hash` itself accepts every string and always produces a bcrypt
hash. -/
theorem c7_schema_rejects_before_hashing (password : String) :
    (password.length < 8 →
        validatePasswordField password = .error PyError.validationError) ∧
      (100 < password.length →
        validatePasswordField password = .error PyError.validationError) ∧
      ∀ (digestFn : String → String → Nat → String) (salt : String),
        (get_password_hash digestFn salt password).isBcrypt = true := by
  refine ⟨fun h => ?_, fun h => ?_, fun _ _ => rfl⟩
  · simp [validatePasswordField, h]
  · unfold validatePasswordField
    rw [if_neg (by omega), if_pos h]

/-- C7 (witness): the empty password and a 101-character password are both
rejected by schema validation, while the hashing call itself still produces
a bcrypt hash for an arbitrary short string. -/
theorem c7_witness :
    validatePasswordField "" = .error PyError.validationError ∧
      validatePasswordField (String.mk (List.replicate 101 'a'))
        = .error PyError.validationError ∧
      (get_password_hash constDigest "somesalt" "short").isBcrypt = true :=
  ⟨(c7_schema_rejects_before_hashing "").1 (by decide),
   (c7_schema_rejects_before_hashing _).2.1 (by decide),
   (c7_schema_rejects_before_hashing "short").2.2 constDigest "somesalt"⟩

/-- Helper: any `JWTError` inside `jwt.decode` is caught by
`decode_access_token` and turned into `None`. -/
theorem decode_ok_none_of_joseDecode_error (secret : String) (now : Int)
    (t : Token) (e : JoseError) (h : joseDecode secret now t = .error e) :
    decode_access_token secret now t = .ok none := by
  unfold decode_access_token
  rw [h]

/-- Helper: a token correctly signed over a string subject, an integer
user id and a not-yet-passed expiry decodes to the corresponding
`TokenData`. -/
theorem decode_encode_valid (secret : String) (now : Int) (s : String)
    (uid e : Int) (he : ¬ e < now) :
    decode_access_token secret now
        (joseEncode secret ⟨some (.str s), some (.int uid), some e⟩)
      = .ok (some ⟨some s, some uid⟩) := by
  unfold decode_access_token joseDecode joseEncode validateExp validateSub
  simp [he, TokenData.validate, pyIntCoerce, jvalStr?]

/-- Helper: a correctly signed token whose expiry has passed fails claim
validation with `ExpiredSignatureError`. -/
theorem joseDecode_encode_expired (secret : String) (now : Int) (p : Payload)
    (e : Int) (hp : p.exp = some e) (h : e < now) :
    joseDecode secret now (joseEncode secret p) = .error .expiredSignature := by
  unfold joseEncode joseDecode validateExp
  simp [hp, h]

/-- C1 (counterexample): issuing a token whose claims contain subject
"u@example.com" — and nothing else, exactly the spec's
`issue_token({subject: S})` — then decoding it immediately yields `None`,
the invalid outcome, because `decode_access_token` also demands a `user_id`
claim; the claim promised a non-invalid result carrying the subject. -/
theorem c1_counterexample :
    decode_access_token "your-secret-key-change-in-production" 0
        (create_access_token "your-secret-key-change-in-production" 0
          ⟨some (.str "u@example.com"), none⟩ none)
      = .ok none := rfl

/-- C1 (amended): issuing a token whose claims contain subject S *and an
integer user id* and decoding it immediately (same secret, same instant)
returns a non-invalid result whose claims contain subject S. -/
theorem c1_roundtrip (secret : String) (now : Int) (s : String) (uid : Int) :
    decode_access_token secret now
        (create_access_token secret now ⟨some (.str s), some (.int uid)⟩ none)
      = .ok (some ⟨some s, some uid⟩) := by
  have h : create_access_token secret now ⟨some (.str s), some (.int uid)⟩ none
      = joseEncode secret ⟨some (.str s), some (.int uid), some (now + 3600)⟩ := by
    unfold create_access_token ACCESS_TOKEN_EXPIRE_MINUTES
    norm_num
  rw [h]
  exact decode_encode_valid secret now s uid (now + 3600) (by omega)

/-- C4 (counterexample): a token signed with the server's own (default)
secret, unexpired, carrying the string `"abc"` as its `user_id` claim, makes
`decode_access_token` raise pydantic's `ValidationError` — which is not a
`JWTError` and therefore escapes — contradicting "never propagates an
exception" over all input strings. -/
theorem c4_counterexample :
    decode_access_token "your-secret-key-change-in-production" 0
        (Token.signed ⟨some (.str "u@example.com"), some (.str "abc"), some 3600⟩
          ⟨"your-secret-key-change-in-production",
            ⟨some (.str "u@example.com"), some (.str "abc"), some 3600⟩⟩)
      = .error PyError.validationError := rfl

/-- C4 (amended): every failure inside `jwt.decode` — a structurally
malformed token (the empty string included), a signature made with a
different secret, an expired or otherwise invalid claim set — is caught and
collapsed to the single invalid outcome `None`, indistinguishable to the
caller; only the pydantic validation of a correctly signed token's `user_id`
claim can raise past the `except JWTError` clause. -/
theorem c4_jwt_failures_collapse (secret : String) (now : Int) :
    (∀ s : String, decode_access_token secret now (Token.malformed s) = .ok none) ∧
      (∀ (p : Payload) (sig : Sig), sig ≠ ⟨secret, p⟩ →
        decode_access_token secret now (Token.signed p sig) = .ok none) ∧
      ∀ (t : Token) (e : JoseError), joseDecode secret now t = .error e →
        decode_access_token secret now t = .ok none := by
  refine ⟨fun s => ?_, fun p sig hsig => ?_, fun t e h => ?_⟩
  · exact decode_ok_none_of_joseDecode_error secret now _ .malformedToken rfl
  · refine decode_ok_none_of_joseDecode_error secret now _ .badSignature ?_
    simp only [joseDecode]
    rw [if_neg hsig]
  · exact decode_ok_none_of_joseDecode_error secret now t e h

/-- C4 (witness): the empty (malformed) string, a token signed under the
secret "attacker" rather than the server's, and a token expired at check
time all decode to `None` without an exception. -/
theorem c4_witness :
    decode_access_token "your-secret-key-change-in-production" 0
        (Token.malformed "") = .ok none ∧
      decode_access_token "your-secret-key-change-in-production" 0
        (Token.signed ⟨some (.str "u@example.com"), some (.int 1), some 3600⟩
          ⟨"attacker", ⟨some (.str "u@example.com"), some (.int 1), some 3600⟩⟩)
        = .ok none ∧
      decode_access_token "your-secret-key-change-in-production" 7200
        (Token.signed ⟨some (.str "u@example.com"), some (.int 1), some 3600⟩
          ⟨"your-secret-key-change-in-production",
            ⟨some (.str "u@example.com"), some (.int 1), some 3600⟩⟩)
        = .ok none :=
  ⟨(c4_jwt_failures_collapse "your-secret-key-change-in-production" 0).1 "",
   (c4_jwt_failures_collapse "your-secret-key-change-in-production" 0).2.1
     ⟨some (.str "u@example.com"), some (.int 1), some 3600⟩
     ⟨"attacker", ⟨some (.str "u@example.com"), some (.int 1), some 3600⟩⟩
     (by decide),
   (c4_jwt_failures_collapse "your-secret-key-change-in-production" 7200).2.2
     (Token.signed ⟨some (.str "u@example.com"), some (.int 1), some 3600⟩
       ⟨"your-secret-key-change-in-production",
         ⟨some (.str "u@example.com"), some (.int 1), some 3600⟩⟩)
     .expiredSignature rfl⟩

/-- C5 (counterexample): a token issued at time 0 with ttl = 1 second is
still accepted at current time 1 = issued-time + 1 — jose only rejects when
`exp < now` — refuting "invalid once current time ≥ issued-time + 1". -/
theorem c5_counterexample :
    decode_access_token "your-secret-key-change-in-production" 1
        (create_access_token "your-secret-key-change-in-production" 0
          ⟨some (.str "u@example.com"), some (.int 1)⟩ (some 1))
      = .ok (some ⟨some "u@example.com", some 1⟩) := rfl

/-- C5 (amended): a token issued with a nonzero ttl carries expiry
issued-time + ttl, and decoding returns the invalid outcome exactly when the
current time is *strictly after* that expiry (jose's boundary check is
`exp < now`, so the token is still accepted at the literal expiry second);
it is valid at every time up to and including issued-time + ttl. -/
theorem c5_expiry_boundary (secret : String) (issue ttl check : Int)
    (s : String) (uid : Int) (httl : ttl ≠ 0) :
    (check ≤ issue + ttl →
        decode_access_token secret check
            (create_access_token secret issue ⟨some (.str s), some (.int uid)⟩
              (some ttl))
          = .ok (some ⟨some s, some uid⟩)) ∧
      (issue + ttl < check →
        decode_access_token secret check
            (create_access_token secret issue ⟨some (.str s), some (.int uid)⟩
              (some ttl))
          = .ok none) := by
  have hc : create_access_token secret issue ⟨some (.str s), some (.int uid)⟩
        (some ttl)
      = joseEncode secret ⟨some (.str s), some (.int uid), some (issue + ttl)⟩ := by
    unfold create_access_token
    simp [httl]
  rw [hc]
  constructor
  · intro h
    exact decode_encode_valid secret check s uid (issue + ttl) (by omega)
  · intro h
    exact decode_ok_none_of_joseDecode_error secret check _ .expiredSignature
      (joseDecode_encode_expired secret check _ (issue + ttl) rfl h)

/-- C5 (witness): with ttl = 1 second and issuance at time 0 the token is
valid immediately (time 0) and invalid at time 2. -/
theorem c5_witness :
    decode_access_token "your-secret-key-change-in-production" 0
        (create_access_token "your-secret-key-change-in-production" 0
          ⟨some (.str "u@example.com"), some (.int 1)⟩ (some 1))
      = .ok (some ⟨some "u@example.com", some 1⟩) ∧
      decode_access_token "your-secret-key-change-in-production" 2
        (create_access_token "your-secret-key-change-in-production" 0
          ⟨some (.str "u@example.com"), some (.int 1)⟩ (some 1))
        = .ok none :=
  ⟨(c5_expiry_boundary "your-secret-key-change-in-production" 0 1 0
      "u@example.com" 1 (by decide)).1 (by decide),
   (c5_expiry_boundary "your-secret-key-change-in-production" 0 1 2
      "u@example.com" 1 (by decide)).2 (by decide)⟩

/-- C6 (counterexample): calling `create_access_token` at time 0 with the
explicitly supplied duration 0 embeds expiry 3600 — the default lifetime —
not 0 + 0, because `if expires_delta:` treats a zero timedelta as falsy. -/
theorem c6_counterexample :
    tokenExp (create_access_token "your-secret-key-change-in-production" 0
          ⟨some (.str "u@example.com"), some (.int 1)⟩ (some 0))
        = some 3600 ∧
      tokenExp (create_access_token "your-secret-key-change-in-production" 0
          ⟨some (.str "u@example.com"), some (.int 1)⟩ (some 0))
        ≠ some 0 :=
  ⟨rfl, by decide⟩

/-- C6 (amended): without `expires_delta`, or with a zero `expires_delta`
(falsy in Python), the embedded expiry is current time + 3600 seconds under
the default `ACCESS_TOKEN_EXPIRE_MINUTES = 60`; with any nonzero
`expires_delta` it is current time + that duration. -/
theorem c6_expiry_default (secret : String) (now : Int) (data : TokenInput) :
    tokenExp (create_access_token secret now data none) = some (now + 3600) ∧
      tokenExp (create_access_token secret now data (some 0)) = some (now + 3600) ∧
      ∀ d : Int, d ≠ 0 →
        tokenExp (create_access_token secret now data (some d)) = some (now + d) := by
  refine ⟨?_, ?_, fun d hd => ?_⟩
  · unfold create_access_token ACCESS_TOKEN_EXPIRE_MINUTES tokenExp joseEncode
    norm_num
  · unfold create_access_token ACCESS_TOKEN_EXPIRE_MINUTES tokenExp joseEncode
    norm_num
  · unfold create_access_token tokenExp joseEncode
    simp [hd]

/-- C6 (witness): at time 5 with a supplied nonzero duration 7 the expiry is
5 + 7; with no duration and with zero it is 5 + 3600. -/
theorem c6_witness :
    tokenExp (create_access_token "k" 5 ⟨none, none⟩ none) = some (5 + 3600) ∧
      tokenExp (create_access_token "k" 5 ⟨none, none⟩ (some 0)) = some (5 + 3600) ∧
      tokenExp (create_access_token "k" 5 ⟨none, none⟩ (some 7)) = some (5 + 7) :=
  ⟨(c6_expiry_default "k" 5 ⟨none, none⟩).1,
   (c6_expiry_default "k" 5 ⟨none, none⟩).2.1,
   (c6_expiry_default "k" 5 ⟨none, none⟩).2.2 7 (by decide)⟩

/-- C8: for every database state and credential pair, an unknown email and a
stored-hash mismatch produce the identical generic outcome `None` — the
result does not reveal which factor failed. -/
theorem c8_auth_failure_uniform (digestFn : String → String → Nat → String)
    (db : List DBUser) (credEmail credPassword : String) :
    (dbFindByEmail db credEmail = none →
        authenticate_user digestFn db credEmail credPassword = .ok none) ∧
      ∀ u : DBUser, dbFindByEmail db credEmail = some u →
        verify_password digestFn credPassword u.hashed_password = .ok false →
        authenticate_user digestFn db credEmail credPassword = .ok none := by
  constructor
  · intro h
    unfold authenticate_user
    rw [h]
  · intro u hu hv
    unfold authenticate_user
    rw [hu]
    dsimp only
    rw [hv]

/-- C8 (witness): a lookup miss on the empty database and a password
mismatch against a stored bcrypt hash both yield `None`. -/
theorem c8_witness :
    authenticate_user constDigest [] "u@example.com" "password123" = .ok none ∧
      authenticate_user constDigest
          [⟨1, "u@example.com",
             .bcrypt ⟨"2b", 12, "somesalt", "a-different-digest"⟩⟩]
          "u@example.com" "password123" = .ok none :=
  ⟨(c8_auth_failure_uniform constDigest [] "u@example.com" "password123").1 rfl,
   (c8_auth_failure_uniform constDigest
       [⟨1, "u@example.com", .bcrypt ⟨"2b", 12, "somesalt", "a-different-digest"⟩⟩]
       "u@example.com" "password123").2
     ⟨1, "u@example.com", .bcrypt ⟨"2b", 12, "somesalt", "a-different-digest"⟩⟩
     rfl rfl⟩

/-- C10: on a correctly signed token, `decode_access_token` returns `None`
whenever the payload lacks the `sub` entry or the `user_id` entry (whatever
the expiry), and every success carries the payload's subject string as the
email together with the integer coerced from the payload's `user_id`. -/
theorem c10_requires_user_id (secret : String) (now : Int) (p : Payload) :
    ((p.sub = none ∨ p.userId = none) →
        decode_access_token secret now (Token.signed p ⟨secret, p⟩) = .ok none) ∧
      ∀ td : TokenData,
        decode_access_token secret now (Token.signed p ⟨secret, p⟩)
            = .ok (some td) →
          td.email = p.sub.bind jvalStr? ∧ td.email ≠ none ∧
            td.user_id = p.userId.bind pyIntCoerce ∧ td.user_id ≠ none := by
  have hred : joseDecode secret now (Token.signed p ⟨secret, p⟩)
      = (match validateExp now p with
         | .error e => .error e
         | .ok _ =>
           match validateSub p with
           | .error e => .error e
           | .ok _ => .ok p) := by
    simp [joseDecode]
  constructor
  · intro h
    unfold decode_access_token
    rw [hred]
    cases hve : validateExp now p with
    | error e => rfl
    | ok u =>
      cases hvs : validateSub p with
      | error e => rfl
      | ok v => simp [h]
  · intro td hd
    unfold decode_access_token at hd
    rw [hred] at hd
    cases hve : validateExp now p with
    | error e => rw [hve] at hd; simp at hd
    | ok u =>
      rw [hve] at hd
      cases hvs : validateSub p with
      | error e => rw [hvs] at hd; simp at hd
      | ok v =>
        rw [hvs] at hd
        dsimp only at hd
        by_cases hn : p.sub = none ∨ p.userId = none
        · rw [if_pos hn] at hd
          simp at hd
        · rw [if_neg hn] at hd
          push_neg at hn
          obtain ⟨hs, hu⟩ := hn
          obtain ⟨vs, hvs'⟩ := Option.ne_none_iff_exists'.mp hs
          obtain ⟨vu, hvu⟩ := Option.ne_none_iff_exists'.mp hu
          cases vs with
          | int n =>
            unfold validateSub at hvs
            rw [hvs'] at hvs
            simp at hvs
          | str sstr =>
            rw [hvs', hvu] at hd
            unfold TokenData.validate at hd
            dsimp only at hd
            cases hpi : pyIntCoerce vu with
            | none =>
              rw [hpi] at hd
              simp at hd
            | some n =>
              rw [hpi] at hd
              dsimp only at hd
              simp only [Except.ok.injEq, Option.some.injEq] at hd
              subst hd
              refine ⟨?_, ?_, ?_, ?_⟩
              · rw [hvs']
              · simp [jvalStr?]
              · rw [hvu]
                simp [hpi]
              · simp

/-- C10 (witness): a correctly signed, unexpired token lacking `user_id`
decodes to `None`; a successful decode on a token with subject "u" and
integer user id 3 carries both. -/
theorem c10_witness :
    decode_access_token "k" 0
        (Token.signed ⟨some (.str "u"), none, some 3600⟩
          ⟨"k", ⟨some (.str "u"), none, some 3600⟩⟩) = .ok none ∧
      ((⟨some "u", some 3⟩ : TokenData).email
            = (⟨some (.str "u"), some (.int 3), some 3600⟩ : Payload).sub.bind jvalStr? ∧
          (⟨some "u", some 3⟩ : TokenData).email ≠ none ∧
          (⟨some "u", some 3⟩ : TokenData).user_id
            = (⟨some (.str "u"), some (.int 3), some 3600⟩ : Payload).userId.bind pyIntCoerce ∧
          (⟨some "u", some 3⟩ : TokenData).user_id ≠ none) :=
  ⟨(c10_requires_user_id "k" 0 ⟨some (.str "u"), none, some 3600⟩).1 (Or.inr rfl),
   (c10_requires_user_id "k" 0 ⟨some (.str "u"), some (.int 3), some 3600⟩).2
     ⟨some "u", some 3⟩ rfl⟩
